import Mathlib

/-!
Shallow embedding of the scoring pipeline of `app.py` (UMA Scores).

Conventions of the embedding:
* A pandas cell that may be `NaN` is an `Option`; `none` is `NaN`/absent.
* Numeric cells are `Option ℚ`; a cell holding text that `pd.to_numeric`
  cannot parse is represented by `none` as well (both are coerced to `0`
  by `fillna(0)` after `to_numeric(errors='coerce')`).
* Text cells are `Option String`, holding `str(x)` of the raw value.
* `round(x, 2)` is modelled on ℚ with round-half-to-even, Python's rule.
* A pandas left merge multiplies rows on duplicate right keys and never
  matches `NaN` keys; `leftJoinBy` below reproduces that.
* `sort_values` (an unstable sort in pandas) is modelled by an insertion
  sort over the same composite key; every theorem proved about the sorted
  list is insensitive to the order of rows whose keys are fully equal.
-/

set_option maxRecDepth 40000

/-- Characters dropped by Python's `str.strip()` at both ends of a string. -/
def trimChars (l : List Char) : List Char :=
  ((l.dropWhile Char.isWhitespace).reverse.dropWhile Char.isWhitespace).reverse

/-- Python `s.strip()`. -/
def pystrip (s : String) : String :=
  String.mk (trimChars s.toList)

/-- One step of the regex replacement `\s+` → single space: `prevWs` records
whether the previously emitted character closed a whitespace run. -/
def collapseGo : Bool → List Char → List Char
  | _, [] => []
  | prevWs, c :: cs =>
    if c.isWhitespace then
      (if prevWs then [] else [' ']) ++ collapseGo true cs
    else c :: collapseGo false cs

/-- Pandas `.str.replace(r'\s+', ' ', regex=True)`: every maximal run of
whitespace becomes one space. -/
def collapseWs (s : String) : String :=
  String.mk (collapseGo false s.toList)

/-- Pandas `.astype(str)` on a possibly-`NaN` cell: `NaN` prints as the
literal text `nan`. -/
def astypeStr : Option String → String
  | none => "nan"
  | some s => s

/-- Python `sub in s` (substring test), via `splitOn`: the pattern occurs
iff splitting on it yields more than one piece. -/
def containsStr (s pat : String) : Bool :=
  (s.splitOn pat).length ≥ 2

/-- Test for the regex `^\d+\.0$` of `normalize_dni_value`: one or more
digits followed by the exact suffix `.0`. -/
def isIntDot0 (l : List Char) : Bool :=
  match l.reverse with
  | '0' :: '.' :: rest => !rest.isEmpty && rest.all Char.isDigit
  | _ => false

/-- `normalize_dni_value` of `app.py`: `NaN` stays absent; the text is
stripped, a trailing `.0` after digits is dropped, every non-digit is
removed, and an empty remainder is absent. -/
def normalize_dni_value : Option String → Option String
  | none => none
  | some x =>
    let s := trimChars x.toList
    let s1 := if isIntDot0 s then s.take (s.length - 2) else s
    let d := s1.filter Char.isDigit
    if d = [] then none else some (String.mk d)

/-- Leftmost match of the regex `(20\d{2})`: try each position in turn;
a match needs the literal `2`, `0` and then two digits. -/
def findYear : List Char → Option Int
  | c0 :: c1 :: c2 :: c3 :: rest =>
    if c0 = '2' && c1 = '0' && c2.isDigit && c3.isDigit then
      some (2000 + 10 * ((c2.toNat : Int) - 48) + ((c3.toNat : Int) - 48))
    else findYear (c1 :: c2 :: c3 :: rest)
  | _ => none

/-- `extract_year` of `app.py`: first `20xx` substring of the period label
as an integer year, absent when there is none. -/
def extract_year : Option String → Option Int
  | none => none
  | some v => findYear v.toList

/-- Round a rational to the nearest integer, halves to the even neighbour
(Python's rounding rule). -/
def roundHalfEven (q : ℚ) : ℤ :=
  let n := q.floor
  let f := q - (n : ℚ)
  if f < 1/2 then n
  else if 1/2 < f then n + 1
  else if n % 2 = 0 then n else n + 1

/-- Python `round(q, 2)` on the rational model. -/
def round2 (q : ℚ) : ℚ :=
  (roundHalfEven (q * 100) : ℚ) / 100

/-- `pd.to_numeric(..., errors='coerce').fillna(0)` on one cell. -/
def fill0 : Option ℚ → ℚ
  | none => 0
  | some q => q

/-- Equality of merge keys in pandas: `NaN` matches nothing, not even
another `NaN`. -/
def matchOpt : Option String → Option String → Bool
  | some x, some y => x = y
  | _, _ => false

/-- One row of the contract mapping produced by `load_teacher_contract`. -/
structure ContractEntry where
  DNI : Option String
  Nombre : String
  Apellidos : String
deriving DecidableEq

/-- Raw contract workbook, first sheet: the header row and, per data row,
an association list from header to the cell's `str` value (`none` = `NaN`). -/
structure RawContract where
  cols : List String
  rows : List (List (String × Option String))
deriving DecidableEq

/-- Cell of a raw row under a given header. -/
def getCellS (row : List (String × Option String)) (c : String) : Option String :=
  match row.find? (fun p => p.1 = c) with
  | some p => p.2
  | none => none

/-- Lookup in the dict `{c.strip(): c for c in df.columns}`: the key is the
stripped header; with duplicate stripped headers the later column wins,
hence the reversed search. -/
def colLookup (cols : List String) (k : String) : Option String :=
  cols.reverse.find? (fun c => pystrip c = k)

/-- Exact header spellings tried for the contract's DNI column, in order. -/
def dniExactKeys : List String :=
  ["N° DE DOCUMENTO DE IDENTIDAD", "N° DE DOCUMENTO DE IDENTIDAD ",
   "NRO DE DOCUMENTO DE IDENTIDAD", "NRO DE DOCUMENTO", "NRO DE DOCUMENTO"]

/-- First exact key that resolves to a column. -/
def firstLookup (cols : List String) : List String → Option String
  | [] => none
  | k :: ks =>
    match colLookup cols k with
    | some c => some c
    | none => firstLookup cols ks

/-- Fallback fuzzy search for the DNI column: first header containing both
`DOCUMENTO` and `IDENTIDAD` after upper-casing. -/
def fuzzyDniCol (cols : List String) : Option String :=
  cols.find? (fun c => containsStr c.toUpper ("DOCUMENTO") && containsStr c.toUpper ("IDENTIDAD"))

/-- Keep the first row per key, dropping rows whose key was already seen
(`drop_duplicates(..., keep='first')`; pandas treats `NaN` keys as equal). -/
def dedupByFirst {α κ : Type} [DecidableEq κ] (key : α → κ) : List α → List κ → List α
  | [], _ => []
  | a :: as, seen =>
    if key a ∈ seen then dedupByFirst key as seen
    else a :: dedupByFirst key as (key a :: seen)

/-- `load_teacher_contract` of `app.py`: locate the four columns (exact
spellings, then the fuzzy DNI fallback); on failure return the empty
mapping; otherwise normalize the DNI, take `Nombre` as the stripped `str`
of the names cell, build `Apellido(s)` from the two surname cells joined by
a space with whitespace collapsed, then drop absent and empty DNIs and
de-duplicate by DNI keeping the first row. -/
def load_teacher_contract (rc : RawContract) : List ContractEntry :=
  let dniCol :=
    match firstLookup rc.cols dniExactKeys with
    | some c => some c
    | none => fuzzyDniCol rc.cols
  let nameCol :=
    match colLookup rc.cols ("NOMBRES") with
    | some c => some c
    | none => colLookup rc.cols ("Nombres")
  let aPatCol :=
    match colLookup rc.cols ("APELLIDO PATERNO") with
    | some c => some c
    | none => colLookup rc.cols ("Apellido Paterno")
  let aMatCol :=
    match colLookup rc.cols ("APELLIDO MATERNO") with
    | some c => some c
    | none => colLookup rc.cols ("Apellido Materno")
  match dniCol, nameCol, aPatCol, aMatCol with
  | some dc, some nc, some pc, some mc =>
    let out := rc.rows.map (fun row =>
      { DNI := normalize_dni_value (getCellS row dc)
        Nombre := pystrip (astypeStr (getCellS row nc))
        Apellidos :=
          pystrip (collapseWs
            (pystrip (astypeStr (getCellS row pc)) ++ " " ++
             pystrip (astypeStr (getCellS row mc)))) : ContractEntry })
    let out := out.filter (fun e => e.DNI.isSome)
    let out := out.filter (fun e => e.DNI ≠ some "")
    dedupByFirst ContractEntry.DNI out []
  | _, _, _, _ => []

/-- Row of the `Inducción` sheet after the column selection of `app.py`
(`Periodo`, `DNI`, `Nombre`, `Apellido(s)`, the mail column, `Calificación`). -/
structure InduccionRow where
  Periodo : Option String
  DNI : Option String
  Nombre : Option String
  Apellidos : Option String
  correo : Option String
  Calificacion : Option ℚ
deriving DecidableEq

/-- Row of the `nota Inducción` sheet after its column selection
(`PERIODO`, `DNI`, `Nombre`, `Apellido(s)`, the mail column,
`Total del curso (Real)`). -/
structure NotaInduccionRow where
  PERIODO : Option String
  DNI : Option String
  Nombre : Option String
  Apellidos : Option String
  correo : Option String
  TotalCurso : Option ℚ
deriving DecidableEq

/-- Row of an auxiliary sheet keyed by `DNI` with a single score column
(`Bus. biblioteca`, `RSU`, `estress`, `Hab. comunicación`). -/
structure DNISheetRow where
  DNI : Option String
  val : Option ℚ
deriving DecidableEq

/-- Row of an auxiliary sheet keyed by the name pair with a single score
column (`Diseño de sesión`, `Integración`). -/
structure NameSheetRow where
  Nombre : Option String
  Apellidos : Option String
  val : Option ℚ
deriving DecidableEq

/-- Row of the `Comp. Tec` sheet: the name pair plus an association list
from the sheet's challenge headers to cells. -/
structure CompTecRow where
  Nombre : Option String
  Apellidos : Option String
  cells : List (String × Option ℚ)
deriving DecidableEq

/-- Primary workbook: the nine required sheets, already reduced to the
columns `extract_data_from_excel` reads.  `compTecCols` keeps the header
row of `Comp. Tec` because the column selection there can fail. -/
structure Workbook where
  induccion : List InduccionRow
  notaInduccion : List NotaInduccionRow
  busBiblioteca : List DNISheetRow
  disenoSesion : List NameSheetRow
  compTecCols : List String
  compTec : List CompTecRow
  integracion : List NameSheetRow
  rsu : List DNISheetRow
  estress : List DNISheetRow
  habCom : List DNISheetRow
deriving DecidableEq

/-- Row of the working table `all_data`: the concatenated base columns plus
every later-joined component column (absent until its join runs). -/
structure Row where
  Periodo : Option String
  DNI : Option String
  Nombre : Option String
  Apellidos : Option String
  correo : Option String
  Year : Option Int
  induccion : Option ℚ
  bus_biblioteca : Option ℚ
  diseno_sesion : Option ℚ
  Zoom_basico : Option ℚ
  Zoom_Avanzado : Option ℚ
  Grupos_Moodle : Option ℚ
  Rubrica : Option ℚ
  Padlet : Option ℚ
  Nearpod : Option ℚ
  Tareas_y_foros : Option ℚ
  integracion : Option ℚ
  rsu : Option ℚ
  estress : Option ℚ
  hab_comunicacion : Option ℚ
deriving DecidableEq

/-- The concatenation `pd.concat([nota_induccion_clean, induction_clean])`:
both base sheets renamed into the shared schema, later-joined columns
still absent. -/
def baseRows (wb : Workbook) : List Row :=
  wb.notaInduccion.map (fun r =>
    { Periodo := r.PERIODO, DNI := r.DNI, Nombre := r.Nombre,
      Apellidos := r.Apellidos, correo := r.correo, Year := none,
      induccion := r.TotalCurso,
      bus_biblioteca := none, diseno_sesion := none,
      Zoom_basico := none, Zoom_Avanzado := none, Grupos_Moodle := none,
      Rubrica := none, Padlet := none, Nearpod := none,
      Tareas_y_foros := none, integracion := none, rsu := none,
      estress := none, hab_comunicacion := none })
  ++ wb.induccion.map (fun r =>
    { Periodo := r.Periodo, DNI := r.DNI, Nombre := r.Nombre,
      Apellidos := r.Apellidos, correo := r.correo, Year := none,
      induccion := r.Calificacion,
      bus_biblioteca := none, diseno_sesion := none,
      Zoom_basico := none, Zoom_Avanzado := none, Grupos_Moodle := none,
      Rubrica := none, Padlet := none, Nearpod := none,
      Tareas_y_foros := none, integracion := none, rsu := none,
      estress := none, hab_comunicacion := none })

/-- Lines 107-108: normalize `DNI` and derive `Year` on the concatenated
base.  The name columns are left untouched. -/
def normalizeStep (l : List Row) : List Row :=
  l.map (fun r =>
    { r with DNI := normalize_dni_value r.DNI, Year := extract_year r.Periodo })

/-- Left merge of pandas: every base row is kept; a row with no key match
gets an absent payload, a row with several matches is repeated once per
match, in order. -/
def leftJoinBy {β : Type} (mtch : Row → β → Bool) (upd : Row → Option β → Row)
    (l : List Row) (aux : List β) : List Row :=
  l.flatMap (fun r =>
    let ms := aux.filter (mtch r)
    if ms.isEmpty then [upd r none] else ms.map (fun a => upd r (some a)))

/-- Merge of `Bus. biblioteca` by `DNI` (the sheet's DNIs are normalized
first). -/
def joinBus (l : List Row) (aux : List DNISheetRow) : List Row :=
  leftJoinBy (fun r a => matchOpt r.DNI a.DNI)
    (fun r a => { r with bus_biblioteca := a.bind DNISheetRow.val }) l
    (aux.map (fun a => { a with DNI := normalize_dni_value a.DNI }))

/-- Merge of `Diseño de sesión` by the raw name pair. -/
def joinDiseno (l : List Row) (aux : List NameSheetRow) : List Row :=
  leftJoinBy
    (fun r a => matchOpt r.Nombre a.Nombre && matchOpt r.Apellidos a.Apellidos)
    (fun r a => { r with diseno_sesion := a.bind NameSheetRow.val }) l aux

/-- Merge of `Integración` by the raw name pair. -/
def joinIntegracion (l : List Row) (aux : List NameSheetRow) : List Row :=
  leftJoinBy
    (fun r a => matchOpt r.Nombre a.Nombre && matchOpt r.Apellidos a.Apellidos)
    (fun r a => { r with integracion := a.bind NameSheetRow.val }) l aux

/-- Merge of `RSU` by `DNI`. -/
def joinRsu (l : List Row) (aux : List DNISheetRow) : List Row :=
  leftJoinBy (fun r a => matchOpt r.DNI a.DNI)
    (fun r a => { r with rsu := a.bind DNISheetRow.val }) l
    (aux.map (fun a => { a with DNI := normalize_dni_value a.DNI }))

/-- Merge of `estress` by `DNI`. -/
def joinEstress (l : List Row) (aux : List DNISheetRow) : List Row :=
  leftJoinBy (fun r a => matchOpt r.DNI a.DNI)
    (fun r a => { r with estress := a.bind DNISheetRow.val }) l
    (aux.map (fun a => { a with DNI := normalize_dni_value a.DNI }))

/-- Merge of `Hab. comunicación` by `DNI`. -/
def joinHabCom (l : List Row) (aux : List DNISheetRow) : List Row :=
  leftJoinBy (fun r a => matchOpt r.DNI a.DNI)
    (fun r a => { r with hab_comunicacion := a.bind DNISheetRow.val }) l
    (aux.map (fun a => { a with DNI := normalize_dni_value a.DNI }))

/-- Rename dictionary `comp_tec_columns` of `app.py`: sheet header of each
technical-competency challenge to its short column name. -/
def renameCompTec (c : String) : String :=
  if c = "Cuestionario:Reto: Zoom básico" then "Zoom_basico"
  else if c = "Cuestionario:Reto: Zoom Avanzado" then "Zoom_Avanzado"
  else if c = "Cuestionario:Reto: Grupos Moodle" then "Grupos_Moodle"
  else if c = "Cuestionario:Reto: Rúbrica" then "Rubrica"
  else if c = "Cuestionario:Reto: Padlet" then "Padlet"
  else if c = "Cuestionario:Reto: Nearpod" then "Nearpod"
  else if c = "Cuestionario:Reto: Tareas y foros" then "Tareas_y_foros"
  else c

/-- The seven short challenge-column names selected from `Comp. Tec`. -/
def compTecShortNames : List String :=
  ["Zoom_basico", "Zoom_Avanzado", "Grupos_Moodle", "Rubrica",
   "Padlet", "Nearpod", "Tareas_y_foros"]

/-- Row of `Comp. Tec` after rename and column selection. -/
structure CompTecSelRow where
  Nombre : Option String
  Apellidos : Option String
  Zoom_basico : Option ℚ
  Zoom_Avanzado : Option ℚ
  Grupos_Moodle : Option ℚ
  Rubrica : Option ℚ
  Padlet : Option ℚ
  Nearpod : Option ℚ
  Tareas_y_foros : Option ℚ
deriving DecidableEq

/-- Cell of a `Comp. Tec` row under a short column name, through the
rename. -/
def compTecGet (r : CompTecRow) (short : String) : Option ℚ :=
  match r.cells.find? (fun p => renameCompTec p.1 = short) with
  | some p => p.2
  | none => none

/-- Error text of the pandas `KeyError` raised by selecting a column that
the renamed `Comp. Tec` sheet does not have. -/
def compTecErrMsg : String :=
  "KeyError: Comp. Tec columns not in index"

/-- Lines 126-140 before the merge: rename the challenge columns and select
the seven short names; a missing column is a `KeyError` that aborts the
request. -/
def compTecSelect (wb : Workbook) : Except String (List CompTecSelRow) :=
  let renamed := wb.compTecCols.map renameCompTec
  if compTecShortNames.all (fun n => renamed.contains n) then
    Except.ok (wb.compTec.map (fun r =>
      { Nombre := r.Nombre, Apellidos := r.Apellidos,
        Zoom_basico := compTecGet r ("Zoom_basico"),
        Zoom_Avanzado := compTecGet r ("Zoom_Avanzado"),
        Grupos_Moodle := compTecGet r ("Grupos_Moodle"),
        Rubrica := compTecGet r ("Rubrica"),
        Padlet := compTecGet r ("Padlet"),
        Nearpod := compTecGet r ("Nearpod"),
        Tareas_y_foros := compTecGet r ("Tareas_y_foros") }))
  else Except.error compTecErrMsg

/-- Merge of the selected `Comp. Tec` columns by the raw name pair. -/
def joinCompTec (l : List Row) (aux : List CompTecSelRow) : List Row :=
  leftJoinBy
    (fun r a => matchOpt r.Nombre a.Nombre && matchOpt r.Apellidos a.Apellidos)
    (fun r a =>
      match a with
      | none =>
        { r with Zoom_basico := none, Zoom_Avanzado := none,
                 Grupos_Moodle := none, Rubrica := none, Padlet := none,
                 Nearpod := none, Tareas_y_foros := none }
      | some a =>
        { r with Zoom_basico := a.Zoom_basico, Zoom_Avanzado := a.Zoom_Avanzado,
                 Grupos_Moodle := a.Grupos_Moodle, Rubrica := a.Rubrica,
                 Padlet := a.Padlet, Nearpod := a.Nearpod,
                 Tareas_y_foros := a.Tareas_y_foros }) l aux

/-- Lines 177-191: with a contract workbook, load it, re-normalize and
re-drop its DNIs, keep only base rows whose `DNI` is in the contract
(`NaN` is in no contract), then left-merge the contract by `DNI` and fill
the name columns from it where the base left them absent. -/
def applyContract (l : List Row) : Option RawContract → List Row
  | none => l
  | some rc =>
    let contract0 := load_teacher_contract rc
    let contract1 := contract0.map (fun e => { e with DNI := normalize_dni_value e.DNI })
    let contract := contract1.filter (fun e => e.DNI.isSome)
    let dnis := contract.map ContractEntry.DNI
    let kept := l.filter (fun r => dnis.contains r.DNI)
    leftJoinBy (fun r e => matchOpt r.DNI e.DNI)
      (fun r e =>
        match e with
        | none => r
        | some e =>
          { r with
            Nombre := match r.Nombre with
                      | some n => some n
                      | none => some e.Nombre
            Apellidos := match r.Apellidos with
                         | some a => some a
                         | none => some e.Apellidos })
      kept contract

/-- Lines 80-191 of `extract_data_from_excel`: build the base, normalize
it, run the seven auxiliary merges in source order, then the contract
step.  Only the `Comp. Tec` column selection can fail here. -/
def allDataOf (wb : Workbook) (c : Option RawContract) : Except String (List Row) :=
  match compTecSelect wb with
  | Except.error e => Except.error e
  | Except.ok ct =>
    let d0 := normalizeStep (baseRows wb)
    let d1 := joinBus d0 wb.busBiblioteca
    let d2 := joinDiseno d1 wb.disenoSesion
    let d3 := joinCompTec d2 ct
    let d4 := joinIntegracion d3 wb.integracion
    let d5 := joinRsu d4 wb.rsu
    let d6 := joinEstress d5 wb.estress
    let d7 := joinHabCom d6 wb.habCom
    Except.ok (applyContract d7 c)

/-- Metric-annotated row: every component coerced to a number, the three
derived metrics computed, plus the `YearPref` and `Highest_Score_Year`
columns added later by the reducer (absent until then). -/
structure MRow where
  Periodo : Option String
  DNI : Option String
  Nombre : Option String
  Apellidos : Option String
  correo : Option String
  Year : Option Int
  induccion : ℚ
  bus_biblioteca : ℚ
  diseno_sesion : ℚ
  Zoom_basico : ℚ
  Zoom_Avanzado : ℚ
  Grupos_Moodle : ℚ
  Rubrica : ℚ
  Padlet : ℚ
  Nearpod : ℚ
  Tareas_y_foros : ℚ
  integracion : ℚ
  rsu : ℚ
  estress : ℚ
  hab_comunicacion : ℚ
  Average : ℚ
  Percentage : ℚ
  Marks_Out_Of_20 : ℚ
  yearPref : ℕ
  Highest_Score_Year : Option Int
deriving DecidableEq

/-- The 14 component scores of a metric row, in the order of
`numeric_columns`. -/
def compList (m : MRow) : List ℚ :=
  [m.induccion, m.bus_biblioteca, m.diseno_sesion,
   m.Zoom_basico, m.Zoom_Avanzado, m.Grupos_Moodle, m.Rubrica,
   m.Padlet, m.Nearpod, m.Tareas_y_foros,
   m.integracion, m.rsu, m.estress, m.hab_comunicacion]

/-- Sum of the 14 coerced components (`filtered[numeric_columns].sum(axis=1)`). -/
def compSum (m : MRow) : ℚ := (compList m).sum

/-- Lines 200-212: coerce every component column to numeric-or-zero, then
compute `Average` (mean of the 14, rounded to 2), `Percentage` (share of
components above zero, rounded to 2) and
`Marks_Out_Of_20 = round(Percentage / 5, 2)`. -/
def computeMetrics (r : Row) : MRow :=
  let i := fill0 r.induccion
  let bb := fill0 r.bus_biblioteca
  let ds := fill0 r.diseno_sesion
  let zb := fill0 r.Zoom_basico
  let za := fill0 r.Zoom_Avanzado
  let gm := fill0 r.Grupos_Moodle
  let ru := fill0 r.Rubrica
  let pa := fill0 r.Padlet
  let ne := fill0 r.Nearpod
  let tf := fill0 r.Tareas_y_foros
  let it := fill0 r.integracion
  let rs := fill0 r.rsu
  let es := fill0 r.estress
  let hc := fill0 r.hab_comunicacion
  let comps : List ℚ := [i, bb, ds, zb, za, gm, ru, pa, ne, tf, it, rs, es, hc]
  let pct := round2 (((comps.countP (fun x => decide (0 < x)) : ℚ) / 14) * 100)
  { Periodo := r.Periodo, DNI := r.DNI, Nombre := r.Nombre,
    Apellidos := r.Apellidos, correo := r.correo, Year := r.Year,
    induccion := i, bus_biblioteca := bb, diseno_sesion := ds,
    Zoom_basico := zb, Zoom_Avanzado := za, Grupos_Moodle := gm,
    Rubrica := ru, Padlet := pa, Nearpod := ne, Tareas_y_foros := tf,
    integracion := it, rsu := rs, estress := es, hab_comunicacion := hc,
    Average := round2 (comps.sum / 14),
    Percentage := pct,
    Marks_Out_Of_20 := round2 (pct / 5),
    yearPref := 0,
    Highest_Score_Year := none }

/-- Lines 215-216: keep the rows whose year is 2024 or 2025 (`NaN` is in
neither) and whose 14-component sum is positive. -/
def filterRows (l : List MRow) : List MRow :=
  (l.filter (fun r => decide (r.Year = some 2024) || decide (r.Year = some 2025))).filter
    (fun r => decide (0 < compSum r))

/-- Binary year preference of line 223: 1 for a 2025 row, 0 otherwise. -/
def ypOf (m : MRow) : ℕ :=
  if m.Year = some 2025 then 1 else 0

/-- Store the year preference in its column. -/
def setYP (m : MRow) : MRow :=
  { m with yearPref := ypOf m }

/-- Composite ranking key of the reducer, largest wins:
`Marks_Out_Of_20`, then `Average`, then the year preference,
lexicographically. -/
def sortKey (m : MRow) : Lex (ℚ × Lex (ℚ × ℕ)) :=
  toLex (m.Marks_Out_Of_20, toLex (m.Average, m.yearPref))

/-- Row order of the descending `sort_values`: `a` may stand before `b`
iff the key of `a` is at least the key of `b`. -/
def rowLE (a b : MRow) : Prop :=
  sortKey b ≤ sortKey a

instance : DecidableRel rowLE :=
  fun a b => inferInstanceAs (Decidable (sortKey b ≤ sortKey a))

instance : IsTotal MRow rowLE :=
  ⟨fun a b => (le_total (sortKey b) (sortKey a)).imp id id⟩

instance : IsTrans MRow rowLE :=
  ⟨fun _ _ _ h1 h2 => le_trans h2 h1⟩

/-- Sort by the composite key, all columns descending (`sort_values` of
line 224; pandas' sort is unstable, so only key positions are specified). -/
def sortRows (l : List MRow) : List MRow :=
  List.insertionSort rowLE l

/-- Lines 221-229: add `YearPref`, sort by the composite key descending,
keep the first row per `DNI`, and copy the winning row's `Year` into
`Highest_Score_Year`. -/
def reduceBest (l : List MRow) : List MRow :=
  (dedupByFirst MRow.DNI (sortRows (l.map setYP)) []).map
    (fun r => { r with Highest_Score_Year := r.Year })

/-- Output row in the order of `final_columns` (the `Year`, `YearPref` and
mail columns are dropped). -/
structure OutRow where
  Periodo : Option String
  Highest_Score_Year : Option Int
  DNI : Option String
  Nombre : Option String
  Apellidos : Option String
  induccion : ℚ
  bus_biblioteca : ℚ
  diseno_sesion : ℚ
  Zoom_basico : ℚ
  Zoom_Avanzado : ℚ
  Grupos_Moodle : ℚ
  Rubrica : ℚ
  Padlet : ℚ
  Nearpod : ℚ
  Tareas_y_foros : ℚ
  integracion : ℚ
  rsu : ℚ
  estress : ℚ
  hab_comunicacion : ℚ
  Average : ℚ
  Marks_Out_Of_20 : ℚ
  Percentage : ℚ
deriving DecidableEq

/-- Column selection `highest[final_columns]`. -/
def toOutRow (m : MRow) : OutRow :=
  { Periodo := m.Periodo, Highest_Score_Year := m.Highest_Score_Year,
    DNI := m.DNI, Nombre := m.Nombre, Apellidos := m.Apellidos,
    induccion := m.induccion, bus_biblioteca := m.bus_biblioteca,
    diseno_sesion := m.diseno_sesion, Zoom_basico := m.Zoom_basico,
    Zoom_Avanzado := m.Zoom_Avanzado, Grupos_Moodle := m.Grupos_Moodle,
    Rubrica := m.Rubrica, Padlet := m.Padlet, Nearpod := m.Nearpod,
    Tareas_y_foros := m.Tareas_y_foros, integracion := m.integracion,
    rsu := m.rsu, estress := m.estress,
    hab_comunicacion := m.hab_comunicacion, Average := m.Average,
    Marks_Out_Of_20 := m.Marks_Out_Of_20, Percentage := m.Percentage }

/-- The 14 component scores of an output row. -/
def outCompList (o : OutRow) : List ℚ :=
  [o.induccion, o.bus_biblioteca, o.diseno_sesion,
   o.Zoom_basico, o.Zoom_Avanzado, o.Grupos_Moodle, o.Rubrica,
   o.Padlet, o.Nearpod, o.Tareas_y_foros,
   o.integracion, o.rsu, o.estress, o.hab_comunicacion]

/-- Metric stage applied to the reconciled table. -/
def metricsOf (wb : Workbook) (c : Option RawContract) : Except String (List MRow) :=
  (allDataOf wb c).map (fun l => l.map computeMetrics)

/-- Filter stage applied to the metric-annotated table. -/
def filteredOf (wb : Workbook) (c : Option RawContract) : Except String (List MRow) :=
  (metricsOf wb c).map filterRows

/-- `extract_data_from_excel` of `app.py` as a whole: reconcile, annotate,
filter, return the empty table when nothing is left, otherwise reduce to
one best row per `DNI` and select the final columns. -/
def extract_data_from_excel (wb : Workbook) (c : Option RawContract) :
    Except String (List OutRow) :=
  match filteredOf wb c with
  | Except.error e => Except.error e
  | Except.ok fil =>
    if fil.isEmpty then Except.ok []
    else Except.ok ((reduceBest fil).map toOutRow)

/-- The composite ranking key as a function of a row's own data (the
`yearPref` column recomputed from `Year`), for stating what the reducer
maximises. -/
def compKey (m : MRow) : Lex (ℚ × Lex (ℚ × ℕ)) :=
  toLex (m.Marks_Out_Of_20, toLex (m.Average, ypOf m))

/-- Successful payload of the pipeline, the empty table on error. -/
def okOutOrNil : Except String (List OutRow) → List OutRow
  | Except.ok l => l
  | Except.error _ => []

/-- Successful payload of the filter stage, the empty table on error. -/
def okFilOrNil : Except String (List MRow) → List MRow
  | Except.ok l => l
  | Except.error _ => []

/-- The full set of challenge headers of a complete `Comp. Tec` sheet. -/
def okCompTecCols : List String :=
  ["Cuestionario:Reto: Zoom básico", "Cuestionario:Reto: Zoom Avanzado",
   "Cuestionario:Reto: Grupos Moodle", "Cuestionario:Reto: Rúbrica",
   "Cuestionario:Reto: Padlet", "Cuestionario:Reto: Nearpod",
   "Cuestionario:Reto: Tareas y foros"]

/-- Basic one-person primary workbook: one 2024 induction row with a valid
DNI and one graded score, every auxiliary sheet present but empty. -/
def cwbBasic : Workbook :=
  { induccion := [{ Periodo := some "2024-I", DNI := some "12345678",
                    Nombre := some "Ana", Apellidos := some "Diaz",
                    correo := none, Calificacion := some 10 }],
    notaInduccion := [], busBiblioteca := [], disenoSesion := [],
    compTecCols := okCompTecCols, compTec := [], integracion := [],
    rsu := [], estress := [], habCom := [] }

/-- The single output row `cwbBasic` produces without a contract. -/
def cwbBasicOut : OutRow :=
  { Periodo := some "2024-I", Highest_Score_Year := some 2024,
    DNI := some "12345678", Nombre := some "Ana", Apellidos := some "Diaz",
    induccion := 10, bus_biblioteca := 0, diseno_sesion := 0,
    Zoom_basico := 0, Zoom_Avanzado := 0, Grupos_Moodle := 0, Rubrica := 0,
    Padlet := 0, Nearpod := 0, Tareas_y_foros := 0, integracion := 0,
    rsu := 0, estress := 0, hab_comunicacion := 0,
    Average := 71/100, Marks_Out_Of_20 := 143/100, Percentage := 357/50 }

/-- Workbook whose two 2024 base rows belong to two different people,
neither of whom has a usable identifier (`N/A` and an empty cell). -/
def c2wb : Workbook :=
  { cwbBasic with
    induccion :=
      [{ Periodo := some "2024", DNI := some "N/A", Nombre := some "P",
         Apellidos := some "Q", correo := none, Calificacion := some 5 },
       { Periodo := some "2024", DNI := none, Nombre := some "R",
         Apellidos := some "S", correo := none, Calificacion := some 7 }] }

/-- `cwbBasic` with the `Tareas y foros` challenge column absent from
`Comp. Tec`. -/
def c4wb : Workbook :=
  { cwbBasic with compTecCols := okCompTecCols.take 6 }

/-- `cwbBasic` with the `Zoom básico` challenge column absent from
`Comp. Tec`. -/
def c4wbB : Workbook :=
  { cwbBasic with compTecCols := okCompTecCols.drop 1 }

/-- Workbook whose base names carry stray whitespace while the
`Diseño de sesión` sheet spells the same person without it. -/
def c5wb : Workbook :=
  { cwbBasic with
    induccion := [{ Periodo := some "2024-I", DNI := some "12345678",
                    Nombre := some "Ana  Maria", Apellidos := some "Diaz ",
                    correo := none, Calificacion := some 10 }],
    disenoSesion := [{ Nombre := some "Ana Maria", Apellidos := some "Diaz",
                       val := some 9 }] }

/-- Base row used to exercise the name join directly. -/
def c5BaseRow : Row :=
  { Periodo := some "2024", DNI := some "11112222", Nombre := some "Ana Maria",
    Apellidos := some "Diaz", correo := none, Year := some 2024,
    induccion := some 10, bus_biblioteca := none, diseno_sesion := none,
    Zoom_basico := none, Zoom_Avanzado := none, Grupos_Moodle := none,
    Rubrica := none, Padlet := none, Nearpod := none, Tareas_y_foros := none,
    integracion := none, rsu := none, estress := none,
    hab_comunicacion := none }

/-- Auxiliary `Diseño de sesión` row whose raw names equal those of
`c5BaseRow`. -/
def c5AuxRow : NameSheetRow :=
  { Nombre := some "Ana Maria", Apellidos := some "Diaz", val := some 9 }

/-- The row the name join produces from `c5BaseRow` and `c5AuxRow`. -/
def c5Joined : Row :=
  { c5BaseRow with diseno_sesion := some 9 }

/-- Contract workbook with no recognizable columns at all. -/
def emptyContract : RawContract :=
  { cols := [], rows := [] }

/-- Contract workbook whose row matches `cwbBasic`'s person but whose
header lacks the maternal-surname column, so the loader finds nothing. -/
def c3Contract : RawContract :=
  { cols := ["N° DE DOCUMENTO DE IDENTIDAD", "NOMBRES", "APELLIDO PATERNO"],
    rows := [[("N° DE DOCUMENTO DE IDENTIDAD", some "12345678"),
              ("NOMBRES", some "Ana"), ("APELLIDO PATERNO", some "Diaz")]] }

/-- Contract workbook with all four columns whose only row has every name
cell empty. -/
def c10Contract : RawContract :=
  { cols := ["N° DE DOCUMENTO DE IDENTIDAD", "NOMBRES",
             "APELLIDO PATERNO", "APELLIDO MATERNO"],
    rows := [[("N° DE DOCUMENTO DE IDENTIDAD", some "12345678"),
              ("NOMBRES", none), ("APELLIDO PATERNO", none),
              ("APELLIDO MATERNO", none)]] }

/-- Workbook whose base row has no name cells, so the contract must
backfill them. -/
def c10wb : Workbook :=
  { cwbBasic with
    induccion := [{ Periodo := some "2025-II", DNI := some "12345678",
                    Nombre := none, Apellidos := none, correo := none,
                    Calificacion := some 8 }] }

/-- Metric row of the tie-break scenario, 2024 period: both metrics equal
those of its 2025 twin. -/
def c1Row2024 : MRow :=
  { Periodo := some "2024", DNI := some "7", Nombre := some "P",
    Apellidos := some "Q", correo := none, Year := some 2024,
    induccion := 12, bus_biblioteca := 0, diseno_sesion := 0,
    Zoom_basico := 0, Zoom_Avanzado := 0, Grupos_Moodle := 0, Rubrica := 0,
    Padlet := 0, Nearpod := 0, Tareas_y_foros := 0, integracion := 0,
    rsu := 0, estress := 0, hab_comunicacion := 0,
    Average := 12, Percentage := 75, Marks_Out_Of_20 := 15,
    yearPref := 0, Highest_Score_Year := none }

/-- The 2025 twin of `c1Row2024`: same `Marks_Out_Of_20` and `Average`. -/
def c1Row2025 : MRow :=
  { c1Row2024 with Periodo := some "2025", Year := some 2025 }

/-- Reducer input of the tie-break scenario. -/
def c1Input : List MRow :=
  [c1Row2024, c1Row2025]

/-- The row the reducer keeps for the tie-break scenario. -/
def c1Winner : MRow :=
  { c1Row2025 with yearPref := 1, Highest_Score_Year := some 2025 }

/-- The single output row `cwbBasic` produces, for instantiating the
output invariants. -/
def c9row : OutRow := cwbBasicOut

/-- Every row kept by the deduplication comes from the input list. -/
theorem mem_of_mem_dedupByFirst {α κ : Type} [DecidableEq κ] (key : α → κ)
    (l : List α) : ∀ (seen : List κ) (r : α),
    r ∈ dedupByFirst key l seen → r ∈ l := by
  induction l with
  | nil => intro seen r h; simp [dedupByFirst] at h
  | cons a as ih =>
    intro seen r h
    simp only [dedupByFirst] at h
    split at h
    · exact List.mem_cons_of_mem a (ih seen r h)
    · rcases List.mem_cons.mp h with h | h
      · exact h ▸ List.mem_cons_self a as
      · exact List.mem_cons_of_mem a (ih _ r h)

/-- The key of a kept row was not among the already-seen keys. -/
theorem key_not_seen_of_mem_dedupByFirst {α κ : Type} [DecidableEq κ]
    (key : α → κ) (l : List α) : ∀ (seen : List κ) (r : α),
    r ∈ dedupByFirst key l seen → key r ∉ seen := by
  induction l with
  | nil => intro seen r h; simp [dedupByFirst] at h
  | cons a as ih =>
    intro seen r h
    simp only [dedupByFirst] at h
    split at h
    · exact ih seen r h
    · rcases List.mem_cons.mp h with h | h
      · subst h; assumption
      · intro hseen
        exact ih _ r h (List.mem_cons_of_mem _ hseen)

/-- In a pairwise-related list, a kept row is related to every input row
with the same key (or equals it): the kept row is the first of its key. -/
theorem rel_of_mem_dedupByFirst {α κ : Type} [DecidableEq κ] (key : α → κ)
    (R : α → α → Prop) (l : List α) : ∀ (seen : List κ) (r r' : α),
    List.Pairwise R l → r ∈ dedupByFirst key l seen → r' ∈ l →
    key r' = key r → R r r' ∨ r = r' := by
  induction l with
  | nil => intro seen r r' _ _ h'; simp at h'
  | cons a as ih =>
    intro seen r r' hp hr hr' hkey
    have hp' := List.pairwise_cons.mp hp
    simp only [dedupByFirst] at hr
    split at hr
    · rcases List.mem_cons.mp hr' with rfl | h'
      · exact absurd (hkey ▸ ‹key r' ∈ seen›)
          (key_not_seen_of_mem_dedupByFirst key as seen r hr)
      · exact ih seen r r' hp'.2 hr h' hkey
    · rcases List.mem_cons.mp hr with rfl | hr2
      · rcases List.mem_cons.mp hr' with rfl | h'
        · exact Or.inr rfl
        · exact Or.inl (hp'.1 r' h')
      · rcases List.mem_cons.mp hr' with rfl | h'
        · have hne : key r ∉ key r' :: seen :=
            key_not_seen_of_mem_dedupByFirst key as _ r hr2
          exact absurd (hkey ▸ List.mem_cons_self _ _) hne
        · exact ih _ r r' hp'.2 hr2 h' hkey

/-- The kept rows have pairwise-distinct keys. -/
theorem nodup_map_key_dedupByFirst {α κ : Type} [DecidableEq κ]
    (key : α → κ) (l : List α) : ∀ seen : List κ,
    ((dedupByFirst key l seen).map key).Nodup := by
  induction l with
  | nil => intro seen; simp [dedupByFirst]
  | cons a as ih =>
    intro seen
    simp only [dedupByFirst]
    split
    · exact ih seen
    · refine List.nodup_cons.mpr ⟨?_, ih (key a :: seen)⟩
      intro hmem
      rcases List.mem_map.mp hmem with ⟨b, hb, hkb⟩
      exact key_not_seen_of_mem_dedupByFirst key as _ b hb
        (hkb ▸ List.mem_cons_self _ _)

/-- Every unseen key of the input list survives into the kept rows. -/
theorem mem_map_key_dedupByFirst {α κ : Type} [DecidableEq κ]
    (key : α → κ) (l : List α) : ∀ (seen : List κ) (d : κ),
    d ∈ l.map key → d ∉ seen → d ∈ (dedupByFirst key l seen).map key := by
  induction l with
  | nil => intro seen d h; simp at h
  | cons a as ih =>
    intro seen d h hns
    rw [List.map_cons] at h
    simp only [dedupByFirst]
    rcases List.mem_cons.mp h with rfl | h'
    · split
      · exact absurd ‹key a ∈ seen› hns
      · exact List.mem_map.mpr ⟨a, List.mem_cons_self _ _, rfl⟩
    · split
      · exact ih seen d h' hns
      · by_cases hda : d = key a
        · exact List.mem_map.mpr ⟨a, List.mem_cons_self _ _, hda.symm⟩
        · have := ih (key a :: seen) d h' (by simp [hda, hns])
          rcases List.mem_map.mp this with ⟨b, hb, hkb⟩
          exact List.mem_map.mpr ⟨b, List.mem_cons_of_mem _ hb, hkb⟩

/-- Starting from no seen keys, the deduplication keeps exactly one row
per distinct key of the input list. -/
theorem length_dedupByFirst {α κ : Type} [DecidableEq κ] (key : α → κ)
    (l : List α) :
    (dedupByFirst key l []).length = (l.map key).dedup.length := by
  have hnd := nodup_map_key_dedupByFirst key l []
  have hsub : ((dedupByFirst key l []).map key).toFinset = (l.map key).toFinset := by
    apply Finset.ext
    intro d
    simp only [List.mem_toFinset]
    constructor
    · intro hd
      rcases List.mem_map.mp hd with ⟨b, hb, hkb⟩
      exact List.mem_map.mpr ⟨b, mem_of_mem_dedupByFirst key l [] b hb, hkb⟩
    · intro hd
      exact mem_map_key_dedupByFirst key l [] d hd (by simp)
  calc (dedupByFirst key l []).length
      = ((dedupByFirst key l []).map key).length := (List.length_map _ _).symm
    _ = ((dedupByFirst key l []).map key).toFinset.card :=
        (List.toFinset_card_of_nodup hnd).symm
    _ = (l.map key).toFinset.card := by rw [hsub]
    _ = (l.map key).dedup.length := List.card_toFinset _

/-- A successful key match of a pandas merge means both sides carried the
same present value. -/
theorem matchOpt_eq_true {x y : Option String} (h : matchOpt x y = true) :
    x = y ∧ x ≠ none := by
  cases x with
  | none => simp [matchOpt] at h
  | some a =>
    cases y with
    | none => simp [matchOpt] at h
    | some b =>
      simp only [matchOpt, decide_eq_true_eq] at h
      exact ⟨by rw [h], by simp⟩

/-- A list of rationals with positive sum has a positive element. -/
theorem exists_pos_of_sum_pos : ∀ l : List ℚ, 0 < l.sum → ∃ q ∈ l, 0 < q := by
  intro l
  induction l with
  | nil => intro h; simp at h
  | cons a t ih =>
    intro h
    by_cases ha : 0 < a
    · exact ⟨a, List.mem_cons_self _ _, ha⟩
    · have : 0 < t.sum := by
        push_neg at ha
        simp only [List.sum_cons] at h
        linarith
      rcases ih this with ⟨q, hq, hq0⟩
      exact ⟨q, List.mem_cons_of_mem _ hq, hq0⟩

/-- The executable floor of `Rat` agrees with the order-theoretic floor. -/
theorem rat_floor_eq_int_floor (q : ℚ) : (Rat.floor q : ℤ) = ⌊q⌋ := by
  rw [Rat.floor_def', Rat.floor_def]

/-- For any attainable component count the completion percentage is
between 0 and 100. -/
theorem pct_bounds (k : ℕ) (hk : k ≤ 14) :
    0 ≤ round2 (((k : ℚ) / 14) * 100) ∧ round2 (((k : ℚ) / 14) * 100) ≤ 100 := by
  interval_cases k <;>
    exact ⟨by norm_num [round2, roundHalfEven, rat_floor_eq_int_floor],
           by norm_num [round2, roundHalfEven, rat_floor_eq_int_floor]⟩

/-- For at least one completed component the percentage is at least 7.14
and the derived mark is positive. -/
theorem pct_lower (k : ℕ) (h1 : 1 ≤ k) (hk : k ≤ 14) :
    (714/100 : ℚ) ≤ round2 (((k : ℚ) / 14) * 100) ∧
    0 < round2 (round2 (((k : ℚ) / 14) * 100) / 5) := by
  interval_cases k <;>
    exact ⟨by norm_num [round2, roundHalfEven, rat_floor_eq_int_floor],
           by norm_num [round2, roundHalfEven, rat_floor_eq_int_floor]⟩

/-- Every row of the reducer's output is a deduplicated sorted row with
`Highest_Score_Year` copied from `Year`. -/
theorem mem_reduceBest_decomp (l : List MRow) (r : MRow)
    (hr : r ∈ reduceBest l) :
    ∃ r₁, r₁ ∈ dedupByFirst MRow.DNI (sortRows (l.map setYP)) [] ∧
      r = { r₁ with Highest_Score_Year := r₁.Year } := by
  rcases List.mem_map.mp hr with ⟨r₁, hr₁, hE⟩
  exact ⟨r₁, hr₁, hE.symm⟩

/-- Every row of the sorted year-preferenced table comes from a filtered
row with its preference column recomputed. -/
theorem mem_sortRows_exists (l : List MRow) (r₁ : MRow)
    (h : r₁ ∈ sortRows (l.map setYP)) : ∃ m ∈ l, r₁ = setYP m := by
  have hm : r₁ ∈ l.map setYP :=
    (List.perm_insertionSort rowLE (l.map setYP)).mem_iff.mp h
  rcases List.mem_map.mp hm with ⟨m, hm', hE⟩
  exact ⟨m, hm', hE.symm⟩

/-- C1: the Best-Period Reducer keeps, per identifier, a row whose
composite key (`Marks_Out_Of_20` descending, then `Average` descending,
then year 2025 preferred over any other year) is maximal among all input
rows with that identifier, records the kept row's year in
`Highest_Score_Year`, and in particular keeps the 2025 row whenever a
2025 row ties the winner on both `Marks_Out_Of_20` and `Average`. -/
theorem C1_reduceBest_max (l : List MRow) (r : MRow) (hr : r ∈ reduceBest l) :
    r.Highest_Score_Year = r.Year ∧
    (∀ m ∈ l, m.DNI = r.DNI → compKey m ≤ compKey r) ∧
    (∀ m ∈ l, m.DNI = r.DNI → m.Marks_Out_Of_20 = r.Marks_Out_Of_20 →
      m.Average = r.Average → m.Year = some 2025 →
      r.Year = some 2025 ∧ r.Highest_Score_Year = some 2025) := by
  obtain ⟨r₁, hr₁, rfl⟩ := mem_reduceBest_decomp l r hr
  obtain ⟨m₀, hm₀, rfl⟩ :=
    mem_sortRows_exists l r₁
      (mem_of_mem_dedupByFirst MRow.DNI (sortRows (l.map setYP)) [] r₁ hr₁)
  have hb : ∀ m ∈ l, m.DNI = m₀.DNI → compKey m ≤ compKey m₀ := by
    intro m hm hdni
    have hmem : setYP m ∈ sortRows (l.map setYP) :=
      (List.perm_insertionSort rowLE (l.map setYP)).mem_iff.mpr
        (List.mem_map.mpr ⟨m, hm, rfl⟩)
    have hpair : List.Pairwise rowLE (sortRows (l.map setYP)) :=
      List.sorted_insertionSort rowLE (l.map setYP)
    have hkey : MRow.DNI (setYP m) = MRow.DNI (setYP m₀) := hdni
    rcases rel_of_mem_dedupByFirst MRow.DNI rowLE (sortRows (l.map setYP)) []
        (setYP m₀) (setYP m) hpair hr₁ hmem hkey with hrel | heq
    · exact hrel
    · exact le_of_eq (congrArg compKey heq).symm
  refine ⟨rfl, hb, ?_⟩
  intro m hm hdni hM hA hY
  have hle := hb m hm hdni
  have h1 := (Prod.Lex.le_iff _ _).mp hle
  rcases h1 with hlt | ⟨_, hinner⟩
  · exact absurd hlt (by rw [show m.Marks_Out_Of_20 = m₀.Marks_Out_Of_20 from hM]; exact lt_irrefl _)
  · rcases (Prod.Lex.le_iff _ _).mp hinner with hlt2 | ⟨_, hyp⟩
    · exact absurd hlt2 (by rw [show m.Average = m₀.Average from hA]; exact lt_irrefl _)
    · have hym : ypOf m = 1 := by simp [ypOf, hY]
      rw [hym] at hyp
      by_cases h25 : m₀.Year = some 2025
      · exact ⟨h25, h25⟩
      · have : ypOf m₀ = 0 := by simp [ypOf, h25]
        rw [this] at hyp
        omega

/-- Witness for C1: on the tie-break scenario (a 2024 row and a 2025 row
with `Marks_Out_Of_20 = 15` and `Average = 12` each), the reducer keeps
the 2025 row and sets `Highest_Score_Year` to 2025. -/
theorem C1_reduceBest_max_witness :
    c1Winner ∈ reduceBest c1Input ∧ c1Winner.Year = some 2025 ∧
      c1Winner.Highest_Score_Year = some 2025 := by
  have hmem : c1Winner ∈ reduceBest c1Input := by decide
  exact ⟨hmem,
    (C1_reduceBest_max c1Input c1Winner hmem).2.2 c1Row2025
      (by decide) rfl rfl rfl rfl⟩

/-- C2 (amended): the output has pairwise-distinct `DNI` values and
exactly one row per distinct `DNI` value of the filtered table, where a
row with an absent identifier counts under the one shared absent value
(pandas deduplicates `NaN` keys like any other key). -/
theorem C2_one_row_per_dni (wb : Workbook) (c : Option RawContract)
    (fil : List MRow) (hfil : filteredOf wb c = Except.ok fil)
    (out : List OutRow) (hout : extract_data_from_excel wb c = Except.ok out) :
    (out.map OutRow.DNI).Nodup ∧
    out.length = (fil.map MRow.DNI).dedup.length := by
  unfold extract_data_from_excel at hout
  rw [hfil] at hout
  change (if fil.isEmpty then Except.ok [] else
    Except.ok ((reduceBest fil).map toOutRow)) = Except.ok out at hout
  by_cases he : fil.isEmpty
  · rw [if_pos he] at hout
    simp only [Except.ok.injEq] at hout
    subst hout
    have : fil = [] := List.isEmpty_iff.mp he
    subst this
    simp
  · rw [if_neg he] at hout
    simp only [Except.ok.injEq] at hout
    subst hout
    constructor
    · have h1 : ((reduceBest fil).map toOutRow).map OutRow.DNI =
          (dedupByFirst MRow.DNI (sortRows (fil.map setYP)) []).map MRow.DNI := by
        unfold reduceBest
        rw [List.map_map, List.map_map]
        exact List.map_congr_left (fun a _ => rfl)
      rw [h1]
      exact nodup_map_key_dedupByFirst MRow.DNI (sortRows (fil.map setYP)) []
    · have hlen1 : ((reduceBest fil).map toOutRow).length =
          (dedupByFirst MRow.DNI (sortRows (fil.map setYP)) []).length := by
        unfold reduceBest
        rw [List.length_map, List.length_map]
      have hperm : List.Perm (sortRows (fil.map setYP)) (fil.map setYP) :=
        List.perm_insertionSort rowLE (fil.map setYP)
      have hd : ((sortRows (fil.map setYP)).map MRow.DNI).dedup.length =
          ((fil.map setYP).map MRow.DNI).dedup.length :=
        ((hperm.map MRow.DNI).dedup).length_eq
      have hsame : (fil.map setYP).map MRow.DNI = fil.map MRow.DNI := by
        rw [List.map_map]
        exact List.map_congr_left (fun a _ => rfl)
      rw [hlen1, length_dedupByFirst MRow.DNI (sortRows (fil.map setYP)), hd, hsame]

/-- Witness for C2 (amended): the basic one-person workbook satisfies
both hypotheses, and the conclusion evaluates on it. -/
theorem C2_one_row_per_dni_witness :
    ((okOutOrNil (extract_data_from_excel cwbBasic none)).map OutRow.DNI).Nodup ∧
    (okOutOrNil (extract_data_from_excel cwbBasic none)).length =
      ((okFilOrNil (filteredOf cwbBasic none)).map MRow.DNI).dedup.length :=
  C2_one_row_per_dni cwbBasic none
    (okFilOrNil (filteredOf cwbBasic none)) (by with_unfolding_all rfl)
    (okOutOrNil (extract_data_from_excel cwbBasic none)) (by with_unfolding_all rfl)

/-- Counterexample to C2 as stated: in `c2wb` two different people survive
the filter, but neither has an identifier, so the filtered table has zero
distinct identifiers while the output still has one row (the two people
are collapsed onto the shared absent key). -/
theorem C2_counterexample :
    (okFilOrNil (filteredOf c2wb none)).length = 2 ∧
    ((okFilOrNil (filteredOf c2wb none)).map MRow.DNI).filterMap id = [] ∧
    (okOutOrNil (extract_data_from_excel c2wb none)).length = 1 ∧
    extract_data_from_excel c2wb none =
      Except.ok (okOutOrNil (extract_data_from_excel c2wb none)) :=
  ⟨by with_unfolding_all decide, by with_unfolding_all decide,
   by with_unfolding_all decide, by with_unfolding_all rfl⟩

/-- C3 (amended): when the Contract Loader returns an empty mapping for a
supplied contract workbook, the pipeline still filters the base against
it, so every base row is excluded and any successful output is the empty
table — not the output obtained without a contract. -/
theorem C3_empty_contract_excludes_all (wb : Workbook) (rc : RawContract)
    (hc : load_teacher_contract rc = []) (out : List OutRow)
    (hout : extract_data_from_excel wb (some rc) = Except.ok out) :
    out = [] := by
  cases hct : compTecSelect wb with
  | error e =>
    have hx : extract_data_from_excel wb (some rc) = Except.error e := by
      unfold extract_data_from_excel filteredOf metricsOf allDataOf
      rw [hct]
      rfl
    rw [hx] at hout
    exact absurd hout (by simp)
  | ok ct =>
    have had : allDataOf wb (some rc) = Except.ok [] := by
      unfold allDataOf
      rw [hct]
      refine congrArg Except.ok ?_
      simp only [applyContract]
      rw [hc]
      simp [leftJoinBy]
    have hfil : filteredOf wb (some rc) = Except.ok [] := by
      unfold filteredOf metricsOf
      rw [had]
      rfl
    unfold extract_data_from_excel at hout
    rw [hfil] at hout
    change Except.ok ([] : List OutRow) = Except.ok out at hout
    injection hout with h
    exact h.symm

/-- Witness for C3 (amended): a contract workbook with no recognizable
columns loads to the empty mapping, and the basic workbook then yields
the empty output. -/
theorem C3_empty_contract_excludes_all_witness :
    okOutOrNil (extract_data_from_excel cwbBasic (some emptyContract)) = [] :=
  C3_empty_contract_excludes_all cwbBasic emptyContract
    (by with_unfolding_all rfl)
    (okOutOrNil (extract_data_from_excel cwbBasic (some emptyContract)))
    (by with_unfolding_all rfl)

/-- Counterexample to C3 as stated: `c3Contract` lacks its
maternal-surname column, so the loader returns the empty mapping, and the
pipeline then returns the empty table even though the same workbook
without a contract yields one row — the base row with identifier
12345678 was excluded by the empty mapping. -/
theorem C3_counterexample :
    load_teacher_contract c3Contract = [] ∧
    extract_data_from_excel cwbBasic (some c3Contract) = Except.ok [] ∧
    extract_data_from_excel cwbBasic none = Except.ok [cwbBasicOut] :=
  ⟨by with_unfolding_all rfl, by with_unfolding_all rfl,
   by with_unfolding_all rfl⟩

/-- C4 (amended): a challenge column missing from `Comp. Tec` is a fatal
structural error — the column selection raises and the whole pipeline
aborts with that error, for any contract argument; no zero-defaulted
output is produced. -/
theorem C4_missing_comp_tec_aborts (wb : Workbook) (c : Option RawContract)
    (h : (compTecShortNames.all
      (fun n => (wb.compTecCols.map renameCompTec).contains n)) = false) :
    extract_data_from_excel wb c = Except.error compTecErrMsg := by
  have hct : compTecSelect wb = Except.error compTecErrMsg := by
    unfold compTecSelect
    dsimp only
    split
    · next hcond => rw [h] at hcond; exact absurd hcond (by simp)
    · rfl
  unfold extract_data_from_excel filteredOf metricsOf allDataOf
  rw [hct]
  rfl

/-- Witness for C4 (amended): dropping the `Zoom básico` column makes the
selection test fail, and the pipeline returns the `KeyError`. -/
theorem C4_missing_comp_tec_aborts_witness :
    extract_data_from_excel c4wbB none = Except.error compTecErrMsg :=
  C4_missing_comp_tec_aborts c4wbB none (by with_unfolding_all rfl)

/-- Counterexample to C4 as stated: with the `Tareas y foros` column
missing from `Comp. Tec`, the pipeline aborts with a `KeyError` instead
of producing output with that component zero. -/
theorem C4_counterexample :
    extract_data_from_excel c4wb none = Except.error compTecErrMsg := by
  with_unfolding_all rfl

/-- C5 (amended): the `Diseño de sesión` merge joins on the raw name
pair — a row only receives a score when some auxiliary row carries
exactly the same (unnormalized) `Nombre` and `Apellido(s)` strings, so
names differing only in whitespace are never joined; no whitespace
normalization is applied to the base's name fields. -/
theorem C5_name_join_requires_exact_names (rows : List Row)
    (aux : List NameSheetRow) (r : Row) (hr : r ∈ joinDiseno rows aux)
    (hv : r.diseno_sesion ≠ none) :
    ∃ a ∈ aux, a.Nombre = r.Nombre ∧ a.Apellidos = r.Apellidos ∧
      a.val = r.diseno_sesion := by
  unfold joinDiseno leftJoinBy at hr
  rcases List.mem_flatMap.mp hr with ⟨r0, hr0, hmem⟩
  rcases hfe : aux.filter
      (fun a => matchOpt r0.Nombre a.Nombre && matchOpt r0.Apellidos a.Apellidos)
    with _ | ⟨a0, ms⟩
  · rw [hfe] at hmem
    simp only [List.isEmpty_nil, if_true, List.mem_singleton] at hmem
    subst hmem
    exact absurd rfl hv
  · rw [hfe] at hmem
    simp only [List.isEmpty_cons, if_false, Bool.false_eq_true] at hmem
    rcases List.mem_map.mp hmem with ⟨a, ha, hEq⟩
    have ha' : a ∈ aux.filter
        (fun a => matchOpt r0.Nombre a.Nombre && matchOpt r0.Apellidos a.Apellidos) :=
      hfe ▸ ha
    rcases List.mem_filter.mp ha' with ⟨haux, hpred⟩
    simp only [Bool.and_eq_true] at hpred
    rcases hpred with ⟨hN, hA⟩
    obtain ⟨hN', _⟩ := matchOpt_eq_true hN
    obtain ⟨hA', _⟩ := matchOpt_eq_true hA
    subst hEq
    exact ⟨a, haux, hN'.symm, hA'.symm, rfl⟩

/-- Witness for C5 (amended): a one-row base and a one-row auxiliary
sheet with identical raw names join, and the theorem recovers the
matching auxiliary row. -/
theorem C5_name_join_requires_exact_names_witness :
    c5AuxRow.Nombre = c5Joined.Nombre ∧ c5AuxRow.val = c5Joined.diseno_sesion := by
  obtain ⟨a, ha, h1, h2, h3⟩ :=
    C5_name_join_requires_exact_names [c5BaseRow] [c5AuxRow] c5Joined
      (by decide) (by decide)
  have haa : a = c5AuxRow := by simpa using ha
  subst haa
  exact ⟨h1, h3⟩

/-- Counterexample to C5 as stated: in `c5wb` the base names and the
`Diseño de sesión` names differ only in whitespace (they agree after
collapsing runs and stripping ends), yet the rows are not joined: the
output keeps the raw base name `"Ana  Maria"` and a `diseno_sesion`
score of 0 although the sheet held 9. -/
theorem C5_counterexample :
    extract_data_from_excel c5wb none =
      Except.ok (okOutOrNil (extract_data_from_excel c5wb none)) ∧
    (okOutOrNil (extract_data_from_excel c5wb none)).map OutRow.Nombre =
      [some "Ana  Maria"] ∧
    (okOutOrNil (extract_data_from_excel c5wb none)).map OutRow.diseno_sesion =
      [0] ∧
    c5wb.disenoSesion.map NameSheetRow.val = [some 9] ∧
    collapseWs (pystrip "Ana  Maria") = collapseWs (pystrip "Ana Maria") ∧
    collapseWs (pystrip "Diaz ") = collapseWs (pystrip "Diaz") :=
  ⟨by with_unfolding_all rfl, by with_unfolding_all decide,
   by with_unfolding_all decide, by decide, by decide, by decide⟩

/-- C6: for every reconciled row, `Percentage` is the share of the 14
components above zero (rounded to 2 decimals), it lies between 0 and 100,
and `Marks_Out_Of_20 = round(Percentage / 5, 2)`. -/
theorem C6_metrics (r : Row) :
    (computeMetrics r).Percentage =
      round2 ((((compList (computeMetrics r)).countP
        (fun x => decide (0 < x)) : ℚ) / 14) * 100) ∧
    0 ≤ (computeMetrics r).Percentage ∧
    (computeMetrics r).Percentage ≤ 100 ∧
    (computeMetrics r).Marks_Out_Of_20 =
      round2 ((computeMetrics r).Percentage / 5) := by
  have hlen : (compList (computeMetrics r)).length = 14 := rfl
  have hk : (compList (computeMetrics r)).countP (fun x => decide (0 < x)) ≤ 14 :=
    le_trans (List.countP_le_length _) (le_of_eq hlen)
  exact ⟨rfl, (pct_bounds _ hk).1, (pct_bounds _ hk).2, rfl⟩

/-- C7: the Identifier Normalizer sends the digit-like inputs
`12345678`, `12345678.0` and `1234-5678` to the digit string `12345678`,
sends the empty string, `N/A` and the absent value to absent, and more
generally sends every string without a digit to absent. -/
theorem C7_normalize_dni :
    normalize_dni_value none = none ∧
    normalize_dni_value (some "12345678") = some "12345678" ∧
    normalize_dni_value (some "12345678.0") = some "12345678" ∧
    normalize_dni_value (some "1234-5678") = some "12345678" ∧
    normalize_dni_value (some "") = none ∧
    normalize_dni_value (some "N/A") = none ∧
    (∀ s : String, (∀ ch ∈ s.toList, ch.isDigit = false) →
      normalize_dni_value (some s) = none) := by
  refine ⟨rfl, by decide, by decide, by decide, rfl, by decide, ?_⟩
  intro s h
  have hmem : ∀ c ∈ trimChars s.toList, c ∈ s.toList := by
    intro c hc
    unfold trimChars at hc
    have h1 := List.mem_reverse.mp hc
    have h2 := (List.dropWhile_sublist _).mem h1
    have h3 := List.mem_reverse.mp h2
    exact (List.dropWhile_sublist _).mem h3
  have hmem2 : ∀ c ∈ (if isIntDot0 (trimChars s.toList)
      then (trimChars s.toList).take ((trimChars s.toList).length - 2)
      else trimChars s.toList), c ∈ s.toList := by
    intro c hc
    by_cases hdot : isIntDot0 (trimChars s.toList)
    · rw [if_pos hdot] at hc
      exact hmem c ((List.take_sublist _ _).mem hc)
    · rw [if_neg hdot] at hc
      exact hmem c hc
  have hfil : ((if isIntDot0 (trimChars s.toList)
      then (trimChars s.toList).take ((trimChars s.toList).length - 2)
      else trimChars s.toList).filter Char.isDigit) = [] := by
    refine List.filter_eq_nil_iff.mpr ?_
    intro a ha
    rw [h a (hmem2 a ha)]
    simp
  simp only [normalize_dni_value]
  rw [hfil]
  rfl

/-- Witness for C7: the digit-free string `XYZ` normalizes to absent by
the general digit-free clause. -/
theorem C7_normalize_dni_witness :
    normalize_dni_value (some "XYZ") = none :=
  C7_normalize_dni.2.2.2.2.2.2 "XYZ" (by decide)

/-- C8: the Period Extractor returns the first `20xx` substring as an
integer year and absent when there is none: `2024` gives 2024, `2025-II`
gives 2025, `24` and `abc` (and the absent value) give absent. -/
theorem C8_extract_year :
    extract_year (some "2024") = some 2024 ∧
    extract_year (some "2025-II") = some 2025 ∧
    extract_year (some "24") = none ∧
    extract_year (some "abc") = none ∧
    extract_year none = none :=
  ⟨by decide, by decide, by decide, by decide, rfl⟩

/-- C9: every row of a successful output has a positive 14-component sum
(hence some strictly positive component), a completion percentage of at
least 7.14, a positive mark, and a `Highest_Score_Year` of 2024 or
2025. -/
theorem C9_output_invariants (wb : Workbook) (c : Option RawContract)
    (out : List OutRow) (hout : extract_data_from_excel wb c = Except.ok out)
    (r : OutRow) (hr : r ∈ out) :
    0 < (outCompList r).sum ∧ (∃ q ∈ outCompList r, 0 < q) ∧
    (714/100 : ℚ) ≤ r.Percentage ∧ 0 < r.Marks_Out_Of_20 ∧
    (r.Highest_Score_Year = some 2024 ∨ r.Highest_Score_Year = some 2025) := by
  unfold extract_data_from_excel at hout
  cases hfil : filteredOf wb c with
  | error e =>
    rw [hfil] at hout
    exact absurd hout (by simp)
  | ok fil =>
    rw [hfil] at hout
    change (if fil.isEmpty then Except.ok [] else
      Except.ok ((reduceBest fil).map toOutRow)) = Except.ok out at hout
    by_cases he : fil.isEmpty
    · rw [if_pos he] at hout
      injection hout with h
      subst h
      exact absurd hr (by simp)
    · rw [if_neg he] at hout
      injection hout with h
      subst h
      rcases List.mem_map.mp hr with ⟨m1, hm1, rfl⟩
      obtain ⟨r₁, hr₁, rfl⟩ := mem_reduceBest_decomp fil m1 hm1
      obtain ⟨m, hmfil, rfl⟩ := mem_sortRows_exists fil r₁
        (mem_of_mem_dedupByFirst MRow.DNI (sortRows (fil.map setYP)) [] r₁ hr₁)
      unfold filteredOf metricsOf at hfil
      cases had : allDataOf wb c with
      | error e =>
        rw [had] at hfil
        exact absurd hfil (by simp [Except.map])
      | ok ad =>
        rw [had] at hfil
        change Except.ok (filterRows (ad.map computeMetrics)) = Except.ok fil at hfil
        injection hfil with hf
        subst hf
        unfold filterRows at hmfil
        rcases List.mem_filter.mp hmfil with ⟨hm3, hsum⟩
        rcases List.mem_filter.mp hm3 with ⟨hm4, hyear⟩
        rcases List.mem_map.mp hm4 with ⟨row, _, rfl⟩
        simp only [decide_eq_true_eq] at hsum
        simp only [Bool.or_eq_true, decide_eq_true_eq] at hyear
        have hpos : ∃ q ∈ compList (computeMetrics row), decide (0 < q) = true := by
          obtain ⟨q, hq, hq0⟩ := exists_pos_of_sum_pos _ hsum
          exact ⟨q, hq, decide_eq_true hq0⟩
        have hk1 : 1 ≤ (compList (computeMetrics row)).countP
            (fun x => decide (0 < x)) :=
          List.countP_pos_iff.mpr hpos
        have hk14 : (compList (computeMetrics row)).countP
            (fun x => decide (0 < x)) ≤ 14 :=
          le_trans (List.countP_le_length _)
            (le_of_eq (show (compList (computeMetrics row)).length = 14 from rfl))
        exact ⟨hsum, exists_pos_of_sum_pos _ hsum,
          (pct_lower _ hk1 hk14).1, (pct_lower _ hk1 hk14).2, hyear⟩

/-- Witness for C9: the invariants instantiated on the single output row
of the basic workbook. -/
theorem C9_output_invariants_witness :
    0 < (outCompList c9row).sum ∧ (714/100 : ℚ) ≤ c9row.Percentage ∧
    0 < c9row.Marks_Out_Of_20 ∧
    (c9row.Highest_Score_Year = some 2024 ∨
      c9row.Highest_Score_Year = some 2025) := by
  have h := C9_output_invariants cwbBasic none
    (okOutOrNil (extract_data_from_excel cwbBasic none))
    (by with_unfolding_all rfl) c9row (by with_unfolding_all decide)
  exact ⟨h.1, h.2.2.1, h.2.2.2.1, h.2.2.2.2⟩

/-- C10: a contract row with empty name cells loads as the literal text
`nan` (`nan nan` for the concatenated surnames), and these literals are
backfilled into the output wherever the base name is absent. -/
theorem C10_nan_contract_backfill :
    load_teacher_contract c10Contract =
      [{ DNI := some "12345678", Nombre := "nan", Apellidos := "nan nan" }] ∧
    extract_data_from_excel c10wb (some c10Contract) =
      Except.ok (okOutOrNil (extract_data_from_excel c10wb (some c10Contract))) ∧
    (okOutOrNil (extract_data_from_excel c10wb (some c10Contract))).map
      OutRow.Nombre = [some "nan"] ∧
    (okOutOrNil (extract_data_from_excel c10wb (some c10Contract))).map
      OutRow.Apellidos = [some "nan nan"] ∧
    c10wb.induccion.map InduccionRow.Nombre = [none] ∧
    c10wb.induccion.map InduccionRow.Apellidos = [none] :=
  ⟨by decide, by with_unfolding_all rfl, by with_unfolding_all decide,
   by with_unfolding_all decide, by decide, by decide⟩

